import Mathlib

/-!
Verification development for the serverless upload broker
(`src/lambda/index.py`): a shared-secret authenticator, a presigned-URL
issuer, an upload confirmer, and a router, shallowly embedded in Lean.

External collaborators (AWS Secrets Manager, S3, `json.loads`,
`base64.b64decode`, the clock, `uuid.uuid4`) are modelled as an explicit
record of per-invocation external behaviour (`Ext`).  Pure standard-library
functions whose behaviour the code relies on (`urllib.parse.quote` /
`unquote` and UTF-8 coding) are embedded directly.

JSON bodies are modelled as the decoded values (`JVal`); `json.dumps` at the
response boundary is an injective serializer, so response equality and the
exact error messages are faithfully captured on the pre-serialized values.
`JVal` uses integer numerics; no claim depends on float-valued JSON.
-/

namespace UploadLambda

/-- JSON values as produced by `json.loads`. -/
inductive JVal where
  | jstr (s : String)
  | jnum (n : Int)
  | jbool (b : Bool)
  | jnull
  | jarr (xs : List JVal)
  | jobj (fields : List (String × JVal))

/-- Python truthiness (`bool(x)`) of a JSON-decoded value. -/
def JVal.truthy : JVal → Bool
  | .jstr s => s != ""
  | .jnum n => n != 0
  | .jbool b => b
  | .jnull => false
  | .jarr xs => !xs.isEmpty
  | .jobj fs => !fs.isEmpty

/-- Truthiness of an optional value (`None` is falsy). -/
def optTruthy : Option JVal → Bool
  | none => false
  | some v => v.truthy

/-- Truthiness of an optional string (environment variables, headers). -/
def strOptTruthy : Option String → Bool
  | none => false
  | some s => s != ""

/-- `d.get(k)` on a Python dict modelled as an association list. -/
def jLookup (fields : List (String × JVal)) (k : String) : Option JVal :=
  (fields.find? fun p => p.1 == k).map fun p => p.2

/-- Lookup in a string-valued mapping (headers, S3 object metadata). -/
def lookupStr (m : List (String × String)) (k : String) : Option String :=
  (m.find? fun p => p.1 == k).map fun p => p.2

/-- `s.startswith(pre)` on Python strings. -/
def pyStartsWith (s pre : String) : Bool :=
  pre.toList.isPrefixOf s.toList

/-- `s[n:]` on Python strings. -/
def pyDrop (s : String) (n : Nat) : String :=
  String.mk (s.toList.drop n)

/-! ## UTF-8 and percent-encoding (`urllib.parse.quote` / `unquote`) -/

/-- UTF-8 encoding of one Unicode scalar value, as a list of byte values. -/
def utf8EncodeChar (c : Char) : List Nat :=
  let v := c.toNat
  if v < 128 then [v]
  else if v < 2048 then [192 + v / 64, 128 + v % 64]
  else if v < 65536 then [224 + v / 4096, 128 + v / 64 % 64, 128 + v % 64]
  else [240 + v / 262144, 128 + v / 4096 % 64, 128 + v / 64 % 64, 128 + v % 64]

/-- The replacement character U+FFFD substituted for malformed input. -/
def replChar : Char := Char.ofNat 65533

/-- One step of UTF-8 decoding: given a lead byte and the following bytes,
produce the decoded character and the remaining input.  Valid sequences
(including the surrogate and overlong guards of CPython's decoder) are decoded
exactly; a malformed sequence yields U+FFFD.  (CPython's `errors='replace'`
handler may consume a longer maximal subpart of a malformed sequence; no
theorem below evaluates the decoder on malformed input.) -/
def utf8Step (b : Nat) (rest : List Nat) : Char × List Nat :=
  if b < 128 then (Char.ofNat b, rest)
  else if b < 194 then (replChar, rest)
  else if b < 224 then
    match rest with
    | b1 :: r1 =>
      if 128 ≤ b1 ∧ b1 < 192 then (Char.ofNat ((b - 192) * 64 + (b1 - 128)), r1)
      else (replChar, rest)
    | [] => (replChar, [])
  else if b < 240 then
    match rest with
    | b1 :: b2 :: r2 =>
      if (128 ≤ b1 ∧ b1 < 192) ∧ (128 ≤ b2 ∧ b2 < 192)
          ∧ (b = 224 → 160 ≤ b1) ∧ (b = 237 → b1 < 160) then
        (Char.ofNat ((b - 224) * 4096 + (b1 - 128) * 64 + (b2 - 128)), r2)
      else (replChar, rest)
    | _ => (replChar, rest)
  else if b < 245 then
    match rest with
    | b1 :: b2 :: b3 :: r3 =>
      if (128 ≤ b1 ∧ b1 < 192) ∧ (128 ≤ b2 ∧ b2 < 192) ∧ (128 ≤ b3 ∧ b3 < 192)
          ∧ (b = 240 → 144 ≤ b1) ∧ (b = 244 → b1 < 144) then
        (Char.ofNat ((b - 240) * 262144 + (b1 - 128) * 4096 + (b2 - 128) * 64 + (b3 - 128)), r3)
      else (replChar, rest)
    | _ => (replChar, rest)
  else (replChar, rest)

theorem utf8Step_snd_length (b : Nat) (rest : List Nat) :
    (utf8Step b rest).2.length ≤ rest.length := by
  unfold utf8Step
  repeat' split
  all_goals simp_all
  all_goals omega

/-- `bytes.decode('utf-8', errors='replace')`. -/
def utf8DecodeReplace : List Nat → List Char
  | [] => []
  | b :: rest =>
    let s := utf8Step b rest
    s.1 :: utf8DecodeReplace s.2
termination_by l => l.length
decreasing_by
  have h := utf8Step_snd_length b rest
  simp_wf
  omega

/-- Hexadecimal value of a character, accepting both letter cases
(as CPython's `unquote` does). -/
def hexVal? (c : Char) : Option Nat :=
  if 48 ≤ c.toNat ∧ c.toNat ≤ 57 then some (c.toNat - 48)
  else if 97 ≤ c.toNat ∧ c.toNat ≤ 102 then some (c.toNat - 87)
  else if 65 ≤ c.toNat ∧ c.toNat ≤ 70 then some (c.toNat - 55)
  else none

/-- Upper-case hexadecimal digit, as emitted by `urllib.parse.quote`. -/
def hexDigitUpper (n : Nat) : Char :=
  Char.ofNat (if n < 10 then 48 + n else 55 + n)

/-- The `%XY` escape for one byte. -/
def pctEncodeByte (b : Nat) : List Char :=
  ['%', hexDigitUpper (b / 16), hexDigitUpper (b % 16)]

/-- Characters `urllib.parse.quote` never encodes (its `_ALWAYS_SAFE` set:
letters, digits, `_`, `.`, `-`, `~`); the call in the source passes
`safe=''`, so no further characters are exempted. -/
def alwaysSafe (c : Char) : Bool :=
  (97 ≤ c.toNat && c.toNat ≤ 122) || (65 ≤ c.toNat && c.toNat ≤ 90) ||
  (48 ≤ c.toNat && c.toNat ≤ 57) ||
  c == '_' || c == '.' || c == '-' || c == '~'

/-- `urllib.parse.quote(s, safe='')`: percent-encode the UTF-8 bytes of every
character outside the always-safe set.  (CPython works byte-wise over the
UTF-8 encoding of the whole string; since safe characters are ASCII this
character-wise formulation is equivalent.) -/
def pyQuoteList (s : List Char) : List Char :=
  (s.map fun c =>
    if alwaysSafe c then [c]
    else ((utf8EncodeChar c).map pctEncodeByte).flatten).flatten

/-- Collect the maximal leading run of valid `%XY` escapes as byte values,
returning the bytes and the remaining input. -/
def pctRun : List Char → List Nat × List Char
  | c :: h1 :: h2 :: rest =>
    if c = '%' then
      match hexVal? h1, hexVal? h2 with
      | some a, some b => ((16 * a + b) :: (pctRun rest).1, (pctRun rest).2)
      | _, _ => ([], c :: h1 :: h2 :: rest)
    else ([], c :: h1 :: h2 :: rest)
  | l => ([], l)

theorem pctRun_pct (h1 h2 : Char) (rest : List Char) (a b : Nat)
    (ha : hexVal? h1 = some a) (hb : hexVal? h2 = some b) :
    pctRun ('%' :: h1 :: h2 :: rest) =
      ((16 * a + b) :: (pctRun rest).1, (pctRun rest).2) := by
  simp [pctRun, ha, hb]

theorem pctRun_ne (c : Char) (l : List Char) (h : c ≠ '%') :
    pctRun (c :: l) = ([], c :: l) := by
  match l with
  | [] => rfl
  | [h1] => rfl
  | h1 :: h2 :: rest => simp [pctRun, h]

theorem pctRun_length : ∀ l : List Char,
    3 * (pctRun l).1.length + (pctRun l).2.length = l.length := by
  intro l
  induction l using pctRun.induct with
  | case1 h1 h2 rest a b hb ha ih =>
    rw [pctRun_pct h1 h2 rest a b ha hb]
    simp only [List.length_cons]
    omega
  | case2 h1 h2 rest hnone =>
    have heq : pctRun ('%' :: h1 :: h2 :: rest) = ([], '%' :: h1 :: h2 :: rest) := by
      simp only [pctRun, if_pos rfl]
      rcases ha : hexVal? h1 with _ | a <;> rcases hb : hexVal? h2 with _ | b
      · rfl
      · rfl
      · rfl
      · exact (hnone a b ha hb).elim
    simp [heq]
  | case3 c h1 h2 rest hc =>
    rw [pctRun_ne c _ hc]
    simp
  | case4 l hshort =>
    match l, hshort with
    | [], _ => rfl
    | [c], _ => rfl
    | [c, h1], _ => rfl
    | c :: h1 :: h2 :: rest, hs => exact ((hs c h1 h2 rest rfl).elim)

/-- `urllib.parse.unquote(s)` (with the default `encoding='utf-8',
errors='replace'`): each maximal run of valid `%XY` escapes is decoded as a
UTF-8 byte sequence; every other character, including `%` not followed by two
hex digits, passes through unchanged. -/
def pyUnquoteList (l : List Char) : List Char :=
  match l with
  | [] => []
  | c :: rest =>
    if h : (pctRun (c :: rest)).1 = [] then c :: pyUnquoteList rest
    else utf8DecodeReplace (pctRun (c :: rest)).1 ++ pyUnquoteList (pctRun (c :: rest)).2
termination_by l.length
decreasing_by
  · simp
  · have hl := pctRun_length (c :: rest)
    have hpos : 1 ≤ (pctRun (c :: rest)).1.length := by
      cases hh : (pctRun (c :: rest)).1 with
      | nil => exact (h hh).elim
      | cons x xs => simp
    simp only [List.length_cons] at hl ⊢
    omega

theorem utf8DecodeReplace_nil : utf8DecodeReplace [] = [] := by
  rw [utf8DecodeReplace]

theorem utf8DecodeReplace_cons (b : Nat) (rest : List Nat) :
    utf8DecodeReplace (b :: rest) =
      (utf8Step b rest).1 :: utf8DecodeReplace (utf8Step b rest).2 := by
  rw [utf8DecodeReplace]

theorem pyUnquoteList_ne (c : Char) (l : List Char) (h : c ≠ '%') :
    pyUnquoteList (c :: l) = c :: pyUnquoteList l := by
  rw [pyUnquoteList, pctRun_ne c l h]
  simp

theorem pyUnquoteList_run (l : List Char) (b : Nat) (bs : List Nat) (rem : List Char)
    (h : pctRun l = (b :: bs, rem)) :
    pyUnquoteList l = utf8DecodeReplace (b :: bs) ++ pyUnquoteList rem := by
  match l with
  | [] => simp [pctRun] at h
  | c :: rest =>
    rw [pyUnquoteList, h]
    simp

/-- Decoding one UTF-8-encoded scalar value at the head of a byte stream
recovers exactly that character. -/
theorem char_toNat_valid (c : Char) :
    c.toNat < 55296 ∨ (57343 < c.toNat ∧ c.toNat < 1114112) := by
  have h : c.val.toNat < 55296 ∨ (57343 < c.val.toNat ∧ c.val.toNat < 1114112) := c.valid
  exact h

theorem utf8_decode_cons (c : Char) (t : List Nat) :
    utf8DecodeReplace (utf8EncodeChar c ++ t) = c :: utf8DecodeReplace t := by
  have hvalid := char_toNat_valid c
  have hofnat : Char.ofNat c.toNat = c := Char.ofNat_toNat c
  set v := c.toNat with hv
  by_cases h1 : v < 128
  · have he : utf8EncodeChar c = [v] := by
      unfold utf8EncodeChar
      rw [← hv, if_pos h1]
    have hstep : utf8Step v t = (Char.ofNat v, t) := by
      simp only [utf8Step]
      rw [if_pos h1]
    rw [he, List.cons_append, List.nil_append, utf8DecodeReplace_cons, hstep]
    simp [hofnat]
  · by_cases h2 : v < 2048
    · have he : utf8EncodeChar c = [192 + v / 64, 128 + v % 64] := by
        unfold utf8EncodeChar
        rw [← hv, if_neg h1, if_pos h2]
      have hstep : utf8Step (192 + v / 64) ((128 + v % 64) :: t) = (Char.ofNat v, t) := by
        simp only [utf8Step]
        split_ifs <;> try omega
        rw [show (192 + v / 64 - 192) * 64 + (128 + v % 64 - 128) = v from by omega]
      rw [he]
      simp only [List.cons_append, List.nil_append]
      rw [utf8DecodeReplace_cons, hstep]
      simp [hofnat]
    · by_cases h3 : v < 65536
      · have he : utf8EncodeChar c = [224 + v / 4096, 128 + v / 64 % 64, 128 + v % 64] := by
          unfold utf8EncodeChar
          rw [← hv, if_neg h1, if_neg h2, if_pos h3]
        have hstep : utf8Step (224 + v / 4096) ((128 + v / 64 % 64) :: (128 + v % 64) :: t) =
            (Char.ofNat v, t) := by
          simp only [utf8Step]
          split_ifs <;> try omega
          rw [show (224 + v / 4096 - 224) * 4096 + (128 + v / 64 % 64 - 128) * 64 +
              (128 + v % 64 - 128) = v from by omega]
        rw [he]
        simp only [List.cons_append, List.nil_append]
        rw [utf8DecodeReplace_cons, hstep]
        simp [hofnat]
      · have he : utf8EncodeChar c = [240 + v / 262144, 128 + v / 4096 % 64,
            128 + v / 64 % 64, 128 + v % 64] := by
          unfold utf8EncodeChar
          rw [← hv, if_neg h1, if_neg h2, if_neg h3]
        have hstep : utf8Step (240 + v / 262144)
            ((128 + v / 4096 % 64) :: (128 + v / 64 % 64) :: (128 + v % 64) :: t) =
            (Char.ofNat v, t) := by
          simp only [utf8Step]
          split_ifs <;> try omega
          rw [show (240 + v / 262144 - 240) * 262144 + (128 + v / 4096 % 64 - 128) * 4096 +
              (128 + v / 64 % 64 - 128) * 64 + (128 + v % 64 - 128) = v from by omega]
        rw [he]
        simp only [List.cons_append, List.nil_append]
        rw [utf8DecodeReplace_cons, hstep]
        simp [hofnat]

theorem encodeChar_ne_nil (c : Char) : utf8EncodeChar c ≠ [] := by
  unfold utf8EncodeChar
  dsimp only
  split_ifs <;> simp

theorem encodeChar_bytes_lt (c : Char) : ∀ b ∈ utf8EncodeChar c, b < 256 := by
  have hb : c.toNat < 1114112 := by
    rcases char_toNat_valid c with h | ⟨_, h⟩ <;> omega
  unfold utf8EncodeChar
  dsimp only
  split_ifs <;> intro b hmem <;> simp only [List.mem_cons, List.not_mem_nil, or_false] at hmem
  · omega
  · rcases hmem with rfl | rfl <;> omega
  · rcases hmem with rfl | rfl | rfl <;> omega
  · rcases hmem with rfl | rfl | rfl | rfl <;> omega

theorem hexVal?_hexDigitUpper (n : Nat) (h : n < 16) :
    hexVal? (hexDigitUpper n) = some n := by
  interval_cases n <;> decide

theorem pctRun_encodeByte (b : Nat) (hb : b < 256) (t : List Char) :
    pctRun (pctEncodeByte b ++ t) = (b :: (pctRun t).1, (pctRun t).2) := by
  have hd1 : hexVal? (hexDigitUpper (b / 16)) = some (b / 16) :=
    hexVal?_hexDigitUpper _ (by omega)
  have hd2 : hexVal? (hexDigitUpper (b % 16)) = some (b % 16) :=
    hexVal?_hexDigitUpper _ (by omega)
  simp only [pctEncodeByte, List.cons_append, List.nil_append]
  rw [pctRun_pct _ _ _ _ _ hd1 hd2, show 16 * (b / 16) + b % 16 = b from by omega]

theorem pctRun_encodeBytes (bs : List Nat) (hb : ∀ b ∈ bs, b < 256) (t : List Char) :
    pctRun ((bs.map pctEncodeByte).flatten ++ t) = (bs ++ (pctRun t).1, (pctRun t).2) := by
  induction bs with
  | nil => simp
  | cons b bs ih =>
    simp only [List.map_cons, List.flatten_cons, List.append_assoc]
    rw [pctRun_encodeByte b (hb b (by simp)) _, ih (fun x hx => hb x (by simp [hx]))]
    simp

theorem safe_ne_pct (c : Char) (h : alwaysSafe c = true) : c ≠ '%' := by
  intro hc
  subst hc
  exact absurd h (by decide)

theorem pyQuoteList_cons (c : Char) (s : List Char) :
    pyQuoteList (c :: s) =
      (if alwaysSafe c then [c]
       else ((utf8EncodeChar c).map pctEncodeByte).flatten) ++ pyQuoteList s := by
  simp [pyQuoteList]

/-- Round trip: `unquote(quote(s, safe=''))` recovers every string, together
with the invariant needed for the induction (decoding the maximal leading
escape run of an encoded string, then the rest, also recovers the string). -/
theorem pyUnquote_pyQuote_aux (s : List Char) :
    pyUnquoteList (pyQuoteList s) = s ∧
    utf8DecodeReplace (pctRun (pyQuoteList s)).1 ++
      pyUnquoteList (pctRun (pyQuoteList s)).2 = s := by
  induction s with
  | nil =>
    refine ⟨by simp [pyQuoteList, pyUnquoteList], ?_⟩
    simp [pyQuoteList, pctRun, utf8DecodeReplace_nil, pyUnquoteList]
  | cons c s ih =>
    obtain ⟨ih1, ih2⟩ := ih
    by_cases hsafe : alwaysSafe c
    · have hq : pyQuoteList (c :: s) = c :: pyQuoteList s := by
        simp [pyQuoteList_cons, hsafe]
      have hne : c ≠ '%' := safe_ne_pct c hsafe
      have h1 : pyUnquoteList (pyQuoteList (c :: s)) = c :: s := by
        rw [hq, pyUnquoteList_ne c _ hne, ih1]
      refine ⟨h1, ?_⟩
      rw [hq, pctRun_ne c _ hne]
      simpa [utf8DecodeReplace_nil, pyUnquoteList_ne c _ hne] using congrArg (c :: ·) ih1
    · have hq : pyQuoteList (c :: s) =
          ((utf8EncodeChar c).map pctEncodeByte).flatten ++ pyQuoteList s := by
        simp [pyQuoteList_cons, hsafe]
      have hrun : pctRun (pyQuoteList (c :: s)) =
          (utf8EncodeChar c ++ (pctRun (pyQuoteList s)).1, (pctRun (pyQuoteList s)).2) := by
        rw [hq, pctRun_encodeBytes _ (encodeChar_bytes_lt c) _]
      obtain ⟨b0, brest, hb⟩ : ∃ b0 brest, utf8EncodeChar c = b0 :: brest := by
        cases hh : utf8EncodeChar c with
        | nil => exact (encodeChar_ne_nil c hh).elim
        | cons x xs => exact ⟨x, xs, rfl⟩
      have hrun' : pctRun (pyQuoteList (c :: s)) =
          (b0 :: (brest ++ (pctRun (pyQuoteList s)).1), (pctRun (pyQuoteList s)).2) := by
        rw [hrun, hb]
        simp
      have hdec : utf8DecodeReplace (b0 :: (brest ++ (pctRun (pyQuoteList s)).1)) =
          c :: utf8DecodeReplace (pctRun (pyQuoteList s)).1 := by
        have := utf8_decode_cons c (pctRun (pyQuoteList s)).1
        rw [hb] at this
        simpa using this
      have h1 : pyUnquoteList (pyQuoteList (c :: s)) = c :: s := by
        rw [pyUnquoteList_run _ _ _ _ hrun', hdec, List.cons_append, ih2]
      refine ⟨h1, ?_⟩
      rw [hrun']
      simpa [hdec] using congrArg (c :: ·) ih2

/-- The `unquote` / `quote(·, safe='')` round trip on character lists. -/
theorem pyUnquote_pyQuote (s : List Char) : pyUnquoteList (pyQuoteList s) = s :=
  (pyUnquote_pyQuote_aux s).1

/-! ## Dates, uuid, formatting -/

/-- Zero-padded two-digit rendering (`%m`, `%d`, `%H`, `%M`, `%S`), defined for
the in-range values `datetime` produces. -/
def pad2 (n : Nat) : String :=
  String.mk [Nat.digitChar (n / 10 % 10), Nat.digitChar (n % 10)]

/-- Zero-padded four-digit rendering (`%Y`), defined for `datetime`'s year
range `1..9999`. -/
def pad4 (n : Nat) : String :=
  String.mk [Nat.digitChar (n / 1000 % 10), Nat.digitChar (n / 100 % 10),
    Nat.digitChar (n / 10 % 10), Nat.digitChar (n % 10)]

/-- Zero-padded six-digit rendering (the microsecond field of `isoformat`). -/
def pad6 (n : Nat) : String :=
  String.mk [Nat.digitChar (n / 100000 % 10), Nat.digitChar (n / 10000 % 10),
    Nat.digitChar (n / 1000 % 10), Nat.digitChar (n / 100 % 10),
    Nat.digitChar (n / 10 % 10), Nat.digitChar (n % 10)]

/-- A `datetime.datetime` value. -/
structure PyDateTime where
  year : Nat
  month : Nat
  day : Nat
  hour : Nat
  minute : Nat
  second : Nat
  microsecond : Nat

/-- The range invariants `datetime.datetime` enforces on its fields. -/
def PyDateTime.inRange (d : PyDateTime) : Prop :=
  1 ≤ d.year ∧ d.year ≤ 9999 ∧ 1 ≤ d.month ∧ d.month ≤ 12 ∧ 1 ≤ d.day ∧ d.day ≤ 31 ∧
  d.hour ≤ 23 ∧ d.minute ≤ 59 ∧ d.second ≤ 59 ∧ d.microsecond < 1000000

instance (d : PyDateTime) : Decidable d.inRange := by
  unfold PyDateTime.inRange
  infer_instance

/-- `dt.strftime('%Y%m%d_%H%M%S')` (line 153 of the source). -/
def strfTimestamp (d : PyDateTime) : String :=
  pad4 d.year ++ pad2 d.month ++ pad2 d.day ++ "_" ++
    pad2 d.hour ++ pad2 d.minute ++ pad2 d.second

/-- `dt.isoformat()`: `YYYY-MM-DDTHH:MM:SS` with `.ffffff` appended exactly
when the microsecond field is nonzero. -/
def PyDateTime.isoformat (d : PyDateTime) : String :=
  pad4 d.year ++ "-" ++ pad2 d.month ++ "-" ++ pad2 d.day ++ "T" ++
    pad2 d.hour ++ ":" ++ pad2 d.minute ++ ":" ++ pad2 d.second ++
    (if d.microsecond = 0 then "" else "." ++ pad6 d.microsecond)

/-- Lower-case hexadecimal pair for one byte, as in `str(uuid.UUID)`. -/
def byteHex (b : Nat) : List Char :=
  [Nat.digitChar (b / 16), Nat.digitChar (b % 16)]

/-- `str(uuid.uuid4())` as a function of the 16 random bytes drawn by
`uuid.uuid4()`: the version nibble of byte 6 is forced to 4, the variant bits
of byte 8 to `10`, and the result is rendered as lower-case hex with dashes
after bytes 3, 5, 7 and 9. -/
def uuid4String (bs : List Nat) : String :=
  match bs with
  | [b0, b1, b2, b3, b4, b5, b6, b7, b8, b9, b10, b11, b12, b13, b14, b15] =>
    String.mk (byteHex b0 ++ byteHex b1 ++ byteHex b2 ++ byteHex b3 ++ ['-'] ++
      byteHex b4 ++ byteHex b5 ++ ['-'] ++
      byteHex (b6 % 16 + 64) ++ byteHex b7 ++ ['-'] ++
      byteHex (b8 % 64 + 128) ++ byteHex b9 ++ ['-'] ++
      byteHex b10 ++ byteHex b11 ++ byteHex b12 ++ byteHex b13 ++
      byteHex b14 ++ byteHex b15)
  | _ => ""

/-! ## Requests, responses and the external world -/

/-- The parts of the API Gateway proxy event the handler reads.  `resource`
and `httpMethod` are read with default `''`; `body` is read with default `''`
(`none` models an absent body). -/
structure Event where
  resource : String
  httpMethod : String
  headers : List (String × String)
  body : Option String
  isBase64Encoded : Bool

/-- The two environment variables the handler reads (`os.environ.get`). -/
structure Env where
  bucket : Option String
  secretArn : Option String

/-- A response before `json.dumps` is applied to its body. -/
structure Response where
  statusCode : Nat
  headers : List (String × String)
  body : JVal

/-- The header mapping every response in the source carries verbatim. -/
def stdHeaders : List (String × String) :=
  [("Content-Type", "application/json"), ("Access-Control-Allow-Origin", "*")]

/-- An error response, exactly as each error branch of the source builds it:
the standard headers and a body containing only an `error` message. -/
def errorResponse (code : Nat) (msg : String) : Response :=
  { statusCode := code, headers := stdHeaders, body := .jobj [("error", .jstr msg)] }

/-- The metadata `head_object` reports for an existing object. -/
structure S3Head where
  contentLength : Int
  contentType : String
  lastModified : PyDateTime
  metadata : List (String × String)

/-- Outcome of the `head_object` call.  `noSuchKey` is the
`s3_client.exceptions.NoSuchKey` exception the source catches; botocore
raises it only when a response body carries the `NoSuchKey` error code.  A
HEAD request against a missing key returns a bodyless 404, which botocore
surfaces as a generic `ClientError` (error code `'404'`), modelled here by
`otherError`. -/
inductive HeadOutcome where
  | found (obj : S3Head)
  | noSuchKey
  | otherError (msg : String)

/-- The value `generate_presigned_post` returns: a URL and form fields. -/
structure PostCred where
  url : String
  fields : List (String × String)

/-- Arguments passed to `generate_presigned_post`. -/
structure PostParams where
  bucket : String
  key : String
  fields : List (String × JVal)
  conditions : List JVal
  expiresIn : Nat

/-- Arguments passed to `generate_presigned_url('put_object', ...)`. -/
structure PutParams where
  bucket : String
  key : String
  contentType : JVal
  metadata : List (String × String)
  expiresIn : Nat

/-- Per-invocation behaviour of everything outside the handler's own code:
the secret store, `base64` / `json` decoding of the request body, the clock
(`now i` is the result of the `i`-th `datetime.now()` call, in source order),
the random uuid bytes, and the three S3 operations.  `secretFetch` is the
combined result of `get_secret_value` plus `json.loads` of its
`SecretString`; its `error` carries the exception text. -/
structure Ext where
  secretFetch : Except String JVal
  b64decode : String → Except String String
  jsonParse : String → Except Unit JVal
  now : Nat → PyDateTime
  uuidBytes : List Nat
  presignPost : PostParams → Except String PostCred
  presignPut : PutParams → Except String String
  headObject : String → HeadOutcome

/-! ## The authenticator (`authenticate_request`, lines 8-89) -/

/-- Python's `a or b` for the two header lookups: the first operand is kept
exactly when it is truthy (present and nonempty). -/
def pyOrHeader (a b : Option String) : Option String :=
  match a with
  | some s => if s = "" then b else some s
  | none => b

/-- `headers.get('Authorization') or headers.get('authorization')`: only
these two exact spellings are consulted. -/
def authHeaderOf (ev : Event) : Option String :=
  pyOrHeader (lookupStr ev.headers "Authorization") (lookupStr ev.headers "authorization")

/-- `provided_token != expected_secret` negated: a Python `str` compares
equal only to an equal `str`. -/
def tokenEq (t : String) (v : JVal) : Bool :=
  match v with
  | .jstr s => t == s
  | _ => false

/-- The format and token checks performed once an Authorization header value
has been found (lines 29-89). -/
def authWithHeader (a : String) (ext : Ext) : Option Response :=
  if pyStartsWith a "Bearer " = false then
    some (errorResponse 401 "Invalid Authorization header format. Expected: Bearer <token>")
  else
    let provided := pyDrop a 7
    match ext.secretFetch with
    | .error _ => some (errorResponse 500 "Failed to retrieve authentication secret")
    | .ok (.jobj fields) =>
      match jLookup fields "shared_secret" with
      | some v =>
        if v.truthy = false then
          some (errorResponse 500 "Shared secret not found in Secrets Manager")
        else if tokenEq provided v = false then
          some (errorResponse 401 "Invalid authentication token")
        else none
      | none => some (errorResponse 500 "Shared secret not found in Secrets Manager")
    | .ok _ => some (errorResponse 500 "Failed to retrieve authentication secret")

/-- `authenticate_request`: `none` means authenticated, `some r` is the error
response returned immediately (the source's `(False, response)`).  A parsed
secret payload that is not a JSON object makes `secret_data.get` raise inside
the `try`, which the same `except` turns into the fetch-failure response. -/
def authenticate_request (ev : Event) (ext : Ext) : Option Response :=
  match authHeaderOf ev with
  | none => some (errorResponse 401 "Missing Authorization header")
  | some a =>
    if a = "" then some (errorResponse 401 "Missing Authorization header")
    else authWithHeader a ext

/-! ## Body decoding shared by both endpoints (lines 116-133, 272-289) -/

/-- `event.get('body', '')` plus the base64 branch; a `b64decode` failure is
an uncaught exception that propagates to the router. -/
def readBody (ev : Event) (ext : Ext) : Except String String :=
  let b := ev.body.getD ""
  if ev.isBase64Encoded then ext.b64decode b else .ok b

/-- `json.loads(body) if body else {}`. -/
def parseJsonBody (body : String) (ext : Ext) : Except Unit JVal :=
  if body = "" then .ok (.jobj []) else ext.jsonParse body

/-! ## The issuer (`generate_presigned_url`, lines 91-245) -/

/-- Python `str()` as used by the f-string building the object key.  Exact
for strings, integers, booleans and `None`; the container renderings are
placeholders — a non-string `file_name` always reaches the `TypeError` raised
by `quote()` before the key can appear in any response, so those cases are
dead in every observable output. -/
def pyStr : JVal → String
  | .jstr s => s
  | .jnum n => toString n
  | .jbool true => "True"
  | .jbool false => "False"
  | .jnull => "None"
  | .jarr _ => "<list>"
  | .jobj _ => "<dict>"

/-- `quote(file_name, safe='')` (line 170). -/
def encodedFilename (fn : String) : String :=
  String.mk (pyQuoteList fn.toList)

/-- `10 * 1024 * 1024 * 1024` (line 180). -/
def maxFileSize : Nat := 10737418240

/-- `str(uuid.uuid4())[:8]` (line 154). -/
def uniqueIdOf (ext : Ext) : String :=
  String.mk ((uuid4String ext.uuidBytes).toList.take 8)

/-- The generated object key (line 155):
`uploads/{timestamp}_{unique_id}_{file_name}`. -/
def fileKeyOf (fnVal : JVal) (ext : Ext) : String :=
  "uploads/" ++ strfTimestamp (ext.now 0) ++ "_" ++ uniqueIdOf ext ++ "_" ++ pyStr fnVal

/-- The arguments of the `generate_presigned_post` call (lines 161-193). -/
def postParamsOf (bucket file_key : String) (content_type : JVal) (encoded : String)
    (ext : Ext) : PostParams :=
  { bucket := bucket
    key := file_key
    fields := [("Content-Type", content_type),
      ("x-amz-meta-uploaded-at", .jstr (ext.now 1).isoformat),
      ("x-amz-meta-original-filename", .jstr encoded)]
    conditions := [.jobj [("bucket", .jstr bucket)], .jobj [("key", .jstr file_key)],
      .jobj [("Content-Type", content_type)],
      .jobj [("x-amz-meta-uploaded-at", .jstr (ext.now 1).isoformat)],
      .jobj [("x-amz-meta-original-filename", .jstr encoded)],
      .jarr [.jstr "content-length-range", .jnum 1, .jnum (maxFileSize : Int)]]
    expiresIn := 3600 }

/-- The arguments of the presigned-PUT call (lines 196-208). -/
def putParamsOf (bucket file_key : String) (content_type : JVal) (encoded : String)
    (ext : Ext) : PutParams :=
  { bucket := bucket
    key := file_key
    contentType := content_type
    metadata := [("uploaded-at", (ext.now 2).isoformat), ("original-filename", encoded)]
    expiresIn := 3600 }

/-- The issuer's behaviour once the body has parsed to a JSON object
(lines 135-245).  A non-string truthy `file_name` makes `quote()` raise
`TypeError` inside the `try`, yielding the generic 500. -/
def presignWithData (data : List (String × JVal)) (bucket : String) (ext : Ext) : Response :=
  let file_name := jLookup data "file_name"
  let content_type := (jLookup data "content_type").getD (.jstr "application/octet-stream")
  let _file_size := jLookup data "file_size"
  if optTruthy file_name = false then errorResponse 400 "Missing required field: file_name"
  else
    let fnVal := file_name.getD .jnull
    let file_key := fileKeyOf fnVal ext
    match fnVal with
    | .jstr fn =>
      let encoded := encodedFilename fn
      match ext.presignPost (postParamsOf bucket file_key content_type encoded ext) with
      | .error _ => errorResponse 500 "Failed to generate presigned URL"
      | .ok post =>
        match ext.presignPut (putParamsOf bucket file_key content_type encoded ext) with
        | .error _ => errorResponse 500 "Failed to generate presigned URL"
        | .ok putUrl =>
          { statusCode := 200
            headers := stdHeaders
            body := .jobj [
              ("presigned_post", .jobj [("url", .jstr post.url),
                ("fields", .jobj (post.fields.map fun p => (p.1, JVal.jstr p.2)))]),
              ("presigned_put_url", .jstr putUrl),
              ("file_key", .jstr file_key),
              ("bucket", .jstr bucket),
              ("expires_in", .jnum 3600),
              ("max_file_size", .jnum (maxFileSize : Int)),
              ("generated_at", .jstr (ext.now 3).isoformat),
              ("instructions", .jobj [
                ("post_method",
                  .jstr "Use presigned_post.url with form data including presigned_post.fields"),
                ("put_method",
                  .jstr "Use presigned_put_url with PUT request and file as body")])] }
    | _ => errorResponse 500 "Failed to generate presigned URL"

/-- `generate_presigned_url` (lines 91-245).  `Except.error` is an uncaught
Python exception propagating to the router: a `b64decode` failure, or
`request_data.get` on a JSON body that is not an object. -/
def generate_presigned_url (ev : Event) (env : Env) (ext : Ext) : Except String Response :=
  if !strOptTruthy env.bucket || !strOptTruthy env.secretArn then
    .ok (errorResponse 500 "Missing required environment variables")
  else
    match authenticate_request ev ext with
    | some r => .ok r
    | none =>
      match readBody ev ext with
      | .error e => .error e
      | .ok body =>
        match parseJsonBody body ext with
        | .error _ => .ok (errorResponse 400 "Invalid JSON in request body")
        | .ok (.jobj data) => .ok (presignWithData data (env.bucket.getD "") ext)
        | .ok _ => .error "AttributeError"

/-! ## The confirmer (`confirm_upload`, lines 247-364) -/

/-- The `try`/`except: pass` around the metadata decode (lines 316-321):
keep the raw stored value if the decoder raises. -/
def unquoteOrKeep (dec : String → Except Unit String) (v : String) : String :=
  match dec v with
  | .ok d => d
  | .error _ => v

/-- `unquote` as called on line 318; with the default `errors='replace'`
handler it never raises on a `str`, so it always returns `ok`. -/
def tryUnquote (s : String) : Except Unit String :=
  .ok (String.mk (pyUnquoteList s.toList))

/-- The metadata copy with `original-filename` URL-decoded (lines 315-321). -/
def decodeMetadata (md : List (String × String)) : List (String × String) :=
  md.map fun p =>
    if p.1 == "original-filename" then (p.1, unquoteOrKeep tryUnquote p.2) else p

/-- The confirmer's behaviour once the body has parsed to a JSON object
(lines 291-364).  A non-string truthy `file_key` makes boto3's parameter
validation raise inside the `try`, yielding the generic 500. -/
def confirmWithData (data : List (String × JVal)) (bucket : String) (ext : Ext) : Response :=
  let file_key := jLookup data "file_key"
  if optTruthy file_key = false then errorResponse 400 "Missing required field: file_key"
  else
    match file_key.getD .jnull with
    | .jstr key =>
      match ext.headObject key with
      | .found obj =>
        let s3_url := "https://" ++ bucket ++ ".s3.amazonaws.com/" ++ key
        let md := decodeMetadata obj.metadata
        { statusCode := 200
          headers := stdHeaders
          body := .jobj [
            ("message", .jstr "File upload confirmed"),
            ("file_key", .jstr key),
            ("s3_url", .jstr s3_url),
            ("bucket", .jstr bucket),
            ("file_size", .jnum obj.contentLength),
            ("content_type", .jstr obj.contentType),
            ("last_modified", .jstr obj.lastModified.isoformat),
            ("metadata", .jobj (md.map fun p => (p.1, JVal.jstr p.2))),
            ("confirmed_at", .jstr (ext.now 0).isoformat)] }
      | .noSuchKey => errorResponse 404 "File not found in S3"
      | .otherError _ => errorResponse 500 "Failed to confirm upload"
    | _ => errorResponse 500 "Failed to confirm upload"

/-- `confirm_upload` (lines 247-364). -/
def confirm_upload (ev : Event) (env : Env) (ext : Ext) : Except String Response :=
  if !strOptTruthy env.bucket || !strOptTruthy env.secretArn then
    .ok (errorResponse 500 "Missing required environment variables")
  else
    match authenticate_request ev ext with
    | some r => .ok r
    | none =>
      match readBody ev ext with
      | .error e => .error e
      | .ok body =>
        match parseJsonBody body ext with
        | .error _ => .ok (errorResponse 400 "Invalid JSON in request body")
        | .ok (.jobj data) => .ok (confirmWithData data (env.bucket.getD "") ext)
        | .ok _ => .error "AttributeError"

/-! ## The router (`handler`, lines 366-408) -/

/-- The router's 404 for unknown (resource, method) pairs (lines 382-395). -/
def endpointNotFound : Response :=
  { statusCode := 404
    headers := stdHeaders
    body := .jobj [
      ("error", .jstr "Endpoint not found"),
      ("available_endpoints", .jarr [
        .jstr "POST /presigned-url - Generate presigned URL for file upload",
        .jstr "POST /confirm-upload - Confirm file upload completion"])] }

/-- `handler` (lines 366-408): dispatch on (resource, method); any uncaught
exception becomes the generic 500. -/
def handler (ev : Event) (env : Env) (ext : Ext) : Response :=
  let inner : Except String Response :=
    if ev.resource == "/presigned-url" && ev.httpMethod == "POST" then
      generate_presigned_url ev env ext
    else if ev.resource == "/confirm-upload" && ev.httpMethod == "POST" then
      confirm_upload ev env ext
    else .ok endpointNotFound
  match inner with
  | .ok r => r
  | .error _ => errorResponse 500 "Internal server error"

/-! ## Concrete sample data for closed instances -/

/-- A fixed clock value. -/
def sampleDT : PyDateTime := ⟨2025, 10, 12, 9, 30, 5, 0⟩

/-- Fixed random bytes behind `uuid.uuid4()`. -/
def sampleBytes : List Nat :=
  [171, 205, 18, 52, 86, 120, 154, 188, 222, 240, 1, 35, 69, 103, 137, 254]

/-- A fully cooperative external world: the secret store holds `tok123`, the
body never parses, S3 reports a missing key, presigning succeeds. -/
def extOk : Ext :=
  { secretFetch := .ok (.jobj [("shared_secret", .jstr "tok123")])
    b64decode := fun s => .ok s
    jsonParse := fun _ => .error ()
    now := fun _ => sampleDT
    uuidBytes := sampleBytes
    presignPost := fun _ => .ok { url := "https://bkt.s3.amazonaws.com/", fields := [("key", "k")] }
    presignPut := fun _ => .ok "https://bkt.s3.amazonaws.com/put"
    headObject := fun _ => HeadOutcome.noSuchKey }

/-- A request carrying the correct bearer token. -/
def evAuthed : Event :=
  { resource := "/presigned-url"
    httpMethod := "POST"
    headers := [("Authorization", "Bearer tok123")]
    body := none
    isBase64Encoded := false }

/-- The same request with the header name spelled in upper case. -/
def evUpperAuth : Event :=
  { resource := "/presigned-url"
    httpMethod := "POST"
    headers := [("AUTHORIZATION", "Bearer tok123")]
    body := none
    isBase64Encoded := false }

/-- Environment with both variables set. -/
def envOk : Env := { bucket := some "bkt", secretArn := some "arn" }

/-! ## Header invariants -/

@[simp] theorem errorResponse_headers (c : Nat) (msg : String) :
    (errorResponse c msg).headers = stdHeaders := rfl

theorem authWithHeader_headers (a : String) (ext : Ext) (r : Response)
    (h : authWithHeader a ext = some r) : r.headers = stdHeaders := by
  unfold authWithHeader at h
  repeat' split at h
  all_goals try (injection h with h; subst h; rfl)
  all_goals simp at h
  all_goals rw [← h.2]
  all_goals rfl

theorem authenticate_request_headers (ev : Event) (ext : Ext) (r : Response)
    (h : authenticate_request ev ext = some r) : r.headers = stdHeaders := by
  unfold authenticate_request at h
  repeat' split at h
  all_goals try (injection h with h; subst h; rfl)
  exact authWithHeader_headers _ _ _ h

theorem presignWithData_headers (data : List (String × JVal)) (bucket : String) (ext : Ext) :
    (presignWithData data bucket ext).headers = stdHeaders := by
  unfold presignWithData
  dsimp only
  repeat' split
  all_goals rfl

theorem confirmWithData_headers (data : List (String × JVal)) (bucket : String) (ext : Ext) :
    (confirmWithData data bucket ext).headers = stdHeaders := by
  unfold confirmWithData
  dsimp only
  repeat' split
  all_goals rfl

theorem generate_presigned_url_headers (ev : Event) (env : Env) (ext : Ext) (r : Response)
    (h : generate_presigned_url ev env ext = .ok r) : r.headers = stdHeaders := by
  unfold generate_presigned_url at h
  repeat' split at h
  all_goals first
    | (injection h with h; subst h;
        first
          | rfl
          | exact presignWithData_headers _ _ _
          | exact authenticate_request_headers _ _ _ (by assumption))
    | simp at h

theorem confirm_upload_headers (ev : Event) (env : Env) (ext : Ext) (r : Response)
    (h : confirm_upload ev env ext = .ok r) : r.headers = stdHeaders := by
  unfold confirm_upload at h
  repeat' split at h
  all_goals first
    | (injection h with h; subst h;
        first
          | rfl
          | exact confirmWithData_headers _ _ _
          | exact authenticate_request_headers _ _ _ (by assumption))
    | simp at h

theorem handler_headers_std (ev : Event) (env : Env) (ext : Ext) :
    (handler ev env ext).headers = stdHeaders := by
  unfold handler
  dsimp only
  split
  · rename_i r heq
    split at heq
    · exact generate_presigned_url_headers _ _ _ _ heq
    · split at heq
      · exact confirm_upload_headers _ _ _ _ heq
      · cases heq
        rfl
  · rfl

/-- C6: every response the handler produces — success or error, from any
component, at any status code — carries both `Content-Type:
application/json` and `Access-Control-Allow-Origin: *`. -/
theorem c6_all_responses_carry_std_headers (ev : Event) (env : Env) (ext : Ext) :
    lookupStr (handler ev env ext).headers "Content-Type" = some "application/json" ∧
    lookupStr (handler ev env ext).headers "Access-Control-Allow-Origin" = some "*" := by
  rw [handler_headers_std ev env ext]
  exact ⟨rfl, rfl⟩

/-! ## C1: how the Authorization header is looked up -/

/-- C1 (counterexample): a request that carries the Authorization header
under the letter-casing `AUTHORIZATION` is nevertheless rejected with 401
"Missing Authorization header" — the authenticator does not find the header
even though a letter-casing of it is present. -/
theorem c1_upper_casing_not_found :
    lookupStr evUpperAuth.headers "AUTHORIZATION" = some "Bearer tok123" ∧
    authenticate_request evUpperAuth extOk =
      some (errorResponse 401 "Missing Authorization header") :=
  ⟨rfl, rfl⟩

/-- C1 (amended): the Authorization header is looked up under exactly the two
spellings `Authorization` and `authorization` (not case-insensitively): when
neither spelling yields a nonempty value the authenticator returns 401
"Missing Authorization header", and when one does it proceeds to the
format/token checks on that value. -/
theorem c1_amended_two_spellings (ev : Event) (ext : Ext) :
    (authHeaderOf ev = none →
      authenticate_request ev ext = some (errorResponse 401 "Missing Authorization header")) ∧
    (authHeaderOf ev = some "" →
      authenticate_request ev ext = some (errorResponse 401 "Missing Authorization header")) ∧
    (∀ a, authHeaderOf ev = some a → a ≠ "" →
      authenticate_request ev ext = authWithHeader a ext) := by
  refine ⟨?_, ?_, ?_⟩
  · intro h
    unfold authenticate_request
    rw [h]
  · intro h
    unfold authenticate_request
    rw [h]
    simp
  · intro a ha hne
    unfold authenticate_request
    rw [ha]
    simp [hne]

/-- C1 (amended, witness): concrete instance at the upper-cased request. -/
theorem c1_amended_two_spellings_witness :
    authHeaderOf evUpperAuth = none ∧
    authenticate_request evUpperAuth extOk =
      some (errorResponse 401 "Missing Authorization header") :=
  ⟨rfl, (c1_amended_two_spellings evUpperAuth extOk).1 rfl⟩

/-! ## C2: token mismatch -/

theorem startsWith_bearer_ne_empty (a : String) (hb : pyStartsWith a "Bearer " = true) :
    a ≠ "" := by
  intro h
  subst h
  exact absurd hb (by decide)

/-- C2: whenever the Authorization header value starts with `Bearer ` and the
extracted token differs from the (nonempty) stored shared secret, the
authenticator returns 401 "Invalid authentication token" — for every token
value whatsoever. -/
theorem c2_token_mismatch_401 (ev : Event) (ext : Ext) (a secret : String)
    (fields : List (String × JVal))
    (ha : authHeaderOf ev = some a)
    (hb : pyStartsWith a "Bearer " = true)
    (hf : ext.secretFetch = .ok (.jobj fields))
    (hl : jLookup fields "shared_secret" = some (.jstr secret))
    (hsec : secret ≠ "")
    (htok : pyDrop a 7 ≠ secret) :
    authenticate_request ev ext =
      some (errorResponse 401 "Invalid authentication token") := by
  have hane : a ≠ "" := startsWith_bearer_ne_empty a hb
  unfold authenticate_request authWithHeader
  rw [ha]
  simp [hane, hb, hf, hl, JVal.truthy, tokenEq, hsec, htok]

/-- A request with the right header shape but the wrong token. -/
def evBadToken : Event := { evAuthed with headers := [("Authorization", "Bearer wrong")] }

/-- C2 (witness): the concrete mismatching request is rejected with 401. -/
theorem c2_token_mismatch_401_witness :
    authenticate_request evBadToken extOk =
      some (errorResponse 401 "Invalid authentication token") :=
  c2_token_mismatch_401 evBadToken extOk "Bearer wrong" "tok123"
    [("shared_secret", .jstr "tok123")] rfl rfl rfl rfl (by decide) (by decide)

/-! ## C7: secret-store failure -/

theorem auth_fetch_error (ev : Event) (ext : Ext) (a e : String)
    (ha : authHeaderOf ev = some a)
    (hb : pyStartsWith a "Bearer " = true)
    (hf : ext.secretFetch = .error e) :
    authenticate_request ev ext =
      some (errorResponse 500 "Failed to retrieve authentication secret") := by
  have hane : a ≠ "" := startsWith_bearer_ne_empty a hb
  unfold authenticate_request authWithHeader
  rw [ha]
  simp [hane, hb, hf]

theorem generate_auth_fail (ev : Event) (env : Env) (ext : Ext) (r : Response)
    (hr : authenticate_request ev ext = some r) :
    generate_presigned_url ev env ext =
      if !strOptTruthy env.bucket || !strOptTruthy env.secretArn then
        .ok (errorResponse 500 "Missing required environment variables")
      else .ok r := by
  unfold generate_presigned_url
  rw [hr]

theorem confirm_auth_fail (ev : Event) (env : Env) (ext : Ext) (r : Response)
    (hr : authenticate_request ev ext = some r) :
    confirm_upload ev env ext =
      if !strOptTruthy env.bucket || !strOptTruthy env.secretArn then
        .ok (errorResponse 500 "Missing required environment variables")
      else .ok r := by
  unfold confirm_upload
  rw [hr]

/-- C7: if the secret-store fetch raises, authentication fails with the fixed
500 "Failed to retrieve authentication secret"; the full handler response is
identical for any two external worlds whose fetches raise (with arbitrary,
possibly different, exception texts), so nothing about the underlying
exception — its text included — reaches the returned response. -/
theorem c7_fetch_error_fixed_500 (ev : Event) (env : Env) (ext1 ext2 : Ext)
    (e1 e2 a : String)
    (ha : authHeaderOf ev = some a)
    (hb : pyStartsWith a "Bearer " = true)
    (h1 : ext1.secretFetch = .error e1)
    (h2 : ext2.secretFetch = .error e2) :
    authenticate_request ev ext1 =
      some (errorResponse 500 "Failed to retrieve authentication secret") ∧
    handler ev env ext1 = handler ev env ext2 := by
  have hA1 := auth_fetch_error ev ext1 a e1 ha hb h1
  have hA2 := auth_fetch_error ev ext2 a e2 ha hb h2
  refine ⟨hA1, ?_⟩
  unfold handler
  dsimp only
  rw [generate_auth_fail ev env ext1 _ hA1, generate_auth_fail ev env ext2 _ hA2,
    confirm_auth_fail ev env ext1 _ hA1, confirm_auth_fail ev env ext2 _ hA2]

/-- A world whose secret fetch raises one exception. -/
def extFetchErr1 : Ext := { extOk with secretFetch := .error "AccessDeniedException: arn" }

/-- A world whose secret fetch raises a different exception. -/
def extFetchErr2 : Ext := { extOk with secretFetch := .error "ReadTimeoutError" }

/-- C7 (witness): concrete instance with two distinct exception texts. -/
theorem c7_fetch_error_fixed_500_witness :
    authenticate_request evAuthed extFetchErr1 =
      some (errorResponse 500 "Failed to retrieve authentication secret") ∧
    handler evAuthed envOk extFetchErr1 = handler evAuthed envOk extFetchErr2 :=
  c7_fetch_error_fixed_500 evAuthed envOk extFetchErr1 extFetchErr2
    "AccessDeniedException: arn" "ReadTimeoutError" "Bearer tok123" rfl rfl rfl rfl

/-! ## C8: empty body and malformed JSON on /presigned-url -/

theorem handler_presigned_route (ev : Event) (env : Env) (ext : Ext)
    (hres : ev.resource = "/presigned-url") (hmeth : ev.httpMethod = "POST") :
    handler ev env ext =
      match generate_presigned_url ev env ext with
      | .ok r => r
      | .error _ => errorResponse 500 "Internal server error" := by
  unfold handler
  dsimp only
  rw [hres, hmeth]
  simp

theorem handler_confirm_route (ev : Event) (env : Env) (ext : Ext)
    (hres : ev.resource = "/confirm-upload") (hmeth : ev.httpMethod = "POST") :
    handler ev env ext =
      match confirm_upload ev env ext with
      | .ok r => r
      | .error _ => errorResponse 500 "Internal server error" := by
  unfold handler
  dsimp only
  rw [hres, hmeth]
  simp

/-- C8: on an authenticated `/presigned-url` request, an empty body is
treated as the empty JSON object and rejected with 400 "Missing required
field: file_name"; a nonempty body that fails to parse as JSON is rejected
with 400 "Invalid JSON in request body". -/
theorem c8_empty_body_400 (ev : Event) (env : Env) (ext : Ext)
    (hres : ev.resource = "/presigned-url") (hmeth : ev.httpMethod = "POST")
    (hbk : strOptTruthy env.bucket = true) (hsa : strOptTruthy env.secretArn = true)
    (hauth : authenticate_request ev ext = none) :
    (ev.isBase64Encoded = false → ev.body.getD "" = "" →
      handler ev env ext = errorResponse 400 "Missing required field: file_name") ∧
    (∀ b, readBody ev ext = .ok b → b ≠ "" → ext.jsonParse b = .error () →
      handler ev env ext = errorResponse 400 "Invalid JSON in request body") := by
  constructor
  · intro hb64 hbody
    have hread : readBody ev ext = .ok "" := by
      unfold readBody
      rw [hbody, hb64]
      rfl
    rw [handler_presigned_route ev env ext hres hmeth]
    unfold generate_presigned_url
    rw [hauth, hread]
    simp [hbk, hsa, parseJsonBody, presignWithData, jLookup, optTruthy]
  · intro b hrb hbne hparse
    rw [handler_presigned_route ev env ext hres hmeth]
    unfold generate_presigned_url
    rw [hauth, hrb]
    simp [hbk, hsa, parseJsonBody, hbne, hparse]

/-- The authenticated request with a nonempty body that is not JSON. -/
def evBadJson : Event := { evAuthed with body := some "notjson" }

/-- C8 (witness): the two concrete 400 responses. -/
theorem c8_empty_body_400_witness :
    handler evAuthed envOk extOk = errorResponse 400 "Missing required field: file_name" ∧
    handler evBadJson envOk extOk = errorResponse 400 "Invalid JSON in request body" :=
  ⟨(c8_empty_body_400 evAuthed envOk extOk rfl rfl rfl rfl rfl).1 rfl rfl,
    (c8_empty_body_400 evBadJson envOk extOk rfl rfl rfl rfl rfl).2 "notjson" rfl
      (by decide) rfl⟩

/-! ## C10: empty-string or null required fields -/

/-- C10: a JSON body whose required field (`file_name` on `/presigned-url`,
`file_key` on `/confirm-upload`) is absent, the empty string, or null gets in
every case the same fixed 400 "Missing required field" response. -/
theorem c10_falsy_required_field_400 (data1 data2 : List (String × JVal))
    (bucket : String) (ext : Ext)
    (h1 : jLookup data1 "file_name" = none ∨ jLookup data1 "file_name" = some (.jstr "") ∨
      jLookup data1 "file_name" = some .jnull)
    (h2 : jLookup data2 "file_key" = none ∨ jLookup data2 "file_key" = some (.jstr "") ∨
      jLookup data2 "file_key" = some .jnull) :
    presignWithData data1 bucket ext = errorResponse 400 "Missing required field: file_name" ∧
    confirmWithData data2 bucket ext = errorResponse 400 "Missing required field: file_key" := by
  constructor
  · unfold presignWithData
    dsimp only
    rcases h1 with h | h | h <;> rw [h] <;> rfl
  · unfold confirmWithData
    dsimp only
    rcases h2 with h | h | h <;> rw [h] <;> rfl

/-- C10 (witness): concrete empty-string and null field values. -/
theorem c10_falsy_required_field_400_witness :
    presignWithData [("file_name", .jstr "")] "bkt" extOk =
      errorResponse 400 "Missing required field: file_name" ∧
    confirmWithData [("file_key", .jnull)] "bkt" extOk =
      errorResponse 400 "Missing required field: file_key" :=
  c10_falsy_required_field_400 [("file_name", .jstr "")] [("file_key", .jnull)]
    "bkt" extOk (Or.inr (Or.inl rfl)) (Or.inr (Or.inr rfl))

/-! ## C9: file_size has no effect -/

theorem presignWithData_congr (d1 d2 : List (String × JVal)) (bucket : String) (ext : Ext)
    (h : ∀ k, k ≠ "file_size" → jLookup d1 k = jLookup d2 k) :
    presignWithData d1 bucket ext = presignWithData d2 bucket ext := by
  unfold presignWithData
  dsimp only
  rw [h "file_name" (by decide), h "content_type" (by decide)]

/-- C9: `file_size` does not influence behaviour.  For two `/presigned-url`
requests whose bodies parse to JSON objects agreeing on every key except
`file_size` (present with any value, or absent), with identical headers,
environment and external world (clock, randomness, services), the handler
returns identical responses — in particular no value of `file_size` can cause
a validation failure that its absence would not cause. -/
theorem c9_file_size_noninterference (ev1 ev2 : Event) (env : Env) (ext : Ext)
    (d1 d2 : List (String × JVal)) (b1 b2 : String)
    (hres1 : ev1.resource = "/presigned-url") (hmeth1 : ev1.httpMethod = "POST")
    (hres2 : ev2.resource = "/presigned-url") (hmeth2 : ev2.httpMethod = "POST")
    (hhd : ev1.headers = ev2.headers)
    (hrb1 : readBody ev1 ext = .ok b1) (hp1 : parseJsonBody b1 ext = .ok (.jobj d1))
    (hrb2 : readBody ev2 ext = .ok b2) (hp2 : parseJsonBody b2 ext = .ok (.jobj d2))
    (hagree : ∀ k, k ≠ "file_size" → jLookup d1 k = jLookup d2 k) :
    handler ev1 env ext = handler ev2 env ext := by
  have hauth : authenticate_request ev1 ext = authenticate_request ev2 ext := by
    unfold authenticate_request authHeaderOf
    rw [hhd]
  rw [handler_presigned_route ev1 env ext hres1 hmeth1,
    handler_presigned_route ev2 env ext hres2 hmeth2]
  have hgen : generate_presigned_url ev1 env ext = generate_presigned_url ev2 env ext := by
    unfold generate_presigned_url
    rw [hauth, hrb1, hrb2]
    dsimp only
    rw [hp1, hp2]
    dsimp only
    rw [presignWithData_congr d1 d2 _ ext hagree]
  rw [hgen]

/-- A world that parses the two marker bodies to objects differing only in
`file_size`. -/
def extParse : Ext :=
  { extOk with jsonParse := fun s =>
      if s = "fsbody1" then .ok (.jobj [("file_name", .jstr "a.txt"), ("file_size", .jnum 5)])
      else if s = "fsbody2" then .ok (.jobj [("file_name", .jstr "a.txt")])
      else .error () }

/-- Request whose body carries a `file_size`. -/
def evWithSize : Event := { evAuthed with body := some "fsbody1" }

/-- The same request without `file_size`. -/
def evWithoutSize : Event := { evAuthed with body := some "fsbody2" }

/-- C9 (witness): the two concrete requests get identical responses. -/
theorem c9_file_size_noninterference_witness :
    handler evWithSize envOk extParse = handler evWithoutSize envOk extParse :=
  c9_file_size_noninterference evWithSize evWithoutSize envOk extParse
    [("file_name", .jstr "a.txt"), ("file_size", .jnum 5)] [("file_name", .jstr "a.txt")]
    "fsbody1" "fsbody2" rfl rfl rfl rfl rfl rfl rfl rfl rfl
    (by
      intro k hk
      have hne : ("file_size" == k) = false := beq_eq_false_iff_ne.mpr (Ne.symm hk)
      unfold jLookup
      cases h1 : ("file_name" == k) <;> simp [List.find?, h1, hne])

/-! ## C5: the generated file_key pattern -/

/-- Lookup in a response body (after the body parsed as a JSON object). -/
def jBody (r : Response) (k : String) : Option JVal :=
  match r.body with
  | .jobj fs => jLookup fs k
  | _ => none

/-- Lower-case hexadecimal digits, the alphabet of `str(uuid.uuid4())`. -/
def isLowerHex (c : Char) : Bool :=
  c.isDigit || (97 ≤ c.toNat && c.toNat ≤ 102)

theorem digitChar_mod10_isDigit (n : Nat) : (Nat.digitChar (n % 10)).isDigit = true := by
  have h : n % 10 < 10 := Nat.mod_lt _ (by omega)
  set m := n % 10 with hm
  interval_cases m <;> decide

theorem digitChar_lowerHex (n : Nat) (h : n < 16) : isLowerHex (Nat.digitChar n) = true := by
  interval_cases n <;> decide

theorem presignWithData_success (data : List (String × JVal)) (bucket : String) (ext : Ext)
    (fn : String) (post : PostCred) (put : String)
    (hfn : jLookup data "file_name" = some (.jstr fn)) (hfne : fn ≠ "")
    (hpost : ∀ p, ext.presignPost p = .ok post)
    (hput : ∀ p, ext.presignPut p = .ok put) :
    presignWithData data bucket ext =
      { statusCode := 200
        headers := stdHeaders
        body := .jobj [
          ("presigned_post", .jobj [("url", .jstr post.url),
            ("fields", .jobj (post.fields.map fun p => (p.1, JVal.jstr p.2)))]),
          ("presigned_put_url", .jstr put),
          ("file_key", .jstr (fileKeyOf (.jstr fn) ext)),
          ("bucket", .jstr bucket),
          ("expires_in", .jnum 3600),
          ("max_file_size", .jnum (maxFileSize : Int)),
          ("generated_at", .jstr (ext.now 3).isoformat),
          ("instructions", .jobj [
            ("post_method",
              .jstr "Use presigned_post.url with form data including presigned_post.fields"),
            ("put_method",
              .jstr "Use presigned_put_url with PUT request and file as body")])] } := by
  unfold presignWithData
  dsimp only
  rw [hfn]
  have htr : optTruthy (some (JVal.jstr fn)) = true := by
    simp [optTruthy, JVal.truthy, hfne]
  rw [if_neg (by simp [htr])]
  dsimp only [Option.getD]
  rw [hpost, hput]

theorem str_toList_append (a b : String) : (a ++ b).toList = a.toList ++ b.toList :=
  String.data_append a b

/-- C5: on an authenticated, well-formed `/presigned-url` request (string
`file_name`, services succeeding), the issuer returns 200 and the `file_key`
of the response is exactly `uploads/` ++ the `YYYYMMDD_HHMMSS` rendering of
the current time ++ `_` ++ the 8-character uuid prefix ++ `_` ++ the file
name; the timestamp is 8 digits, an underscore and 6 more digits, and the
random id is 8 lower-case hex characters. -/
theorem c5_file_key_pattern (data : List (String × JVal)) (bucket : String) (ext : Ext)
    (fn : String) (post : PostCred) (put : String)
    (b0 b1 b2 b3 b4 b5 b6 b7 b8 b9 b10 b11 b12 b13 b14 b15 : Nat)
    (hfn : jLookup data "file_name" = some (.jstr fn)) (hfne : fn ≠ "")
    (hdt : (ext.now 0).inRange)
    (hbytes : ext.uuidBytes =
      [b0, b1, b2, b3, b4, b5, b6, b7, b8, b9, b10, b11, b12, b13, b14, b15])
    (hblt : ∀ b ∈ ext.uuidBytes, b < 256)
    (hpost : ∀ p, ext.presignPost p = .ok post)
    (hput : ∀ p, ext.presignPut p = .ok put) :
    (presignWithData data bucket ext).statusCode = 200 ∧
    jBody (presignWithData data bucket ext) "file_key" =
      some (.jstr ("uploads/" ++ strfTimestamp (ext.now 0) ++ "_" ++
        uniqueIdOf ext ++ "_" ++ fn)) ∧
    (∃ ymd hms : List Char, (strfTimestamp (ext.now 0)).toList = ymd ++ '_' :: hms ∧
      ymd.length = 8 ∧ hms.length = 6 ∧
      (∀ c ∈ ymd, c.isDigit = true) ∧ (∀ c ∈ hms, c.isDigit = true)) ∧
    (uniqueIdOf ext).toList.length = 8 ∧
    (∀ c ∈ (uniqueIdOf ext).toList, isLowerHex c = true) := by
  have heval := presignWithData_success data bucket ext fn post put hfn hfne hpost hput
  have h0 : b0 < 256 := hblt b0 (by rw [hbytes]; simp)
  have h1 : b1 < 256 := hblt b1 (by rw [hbytes]; simp)
  have h2 : b2 < 256 := hblt b2 (by rw [hbytes]; simp)
  have h3 : b3 < 256 := hblt b3 (by rw [hbytes]; simp)
  have huid : (uniqueIdOf ext).toList =
      [Nat.digitChar (b0 / 16), Nat.digitChar (b0 % 16),
       Nat.digitChar (b1 / 16), Nat.digitChar (b1 % 16),
       Nat.digitChar (b2 / 16), Nat.digitChar (b2 % 16),
       Nat.digitChar (b3 / 16), Nat.digitChar (b3 % 16)] := by
    unfold uniqueIdOf uuid4String
    rw [hbytes]
    simp [byteHex]
  refine ⟨by rw [heval], ?_, ?_, ?_, ?_⟩
  · rw [heval]
    rfl
  · refine ⟨(pad4 (ext.now 0).year).toList ++ (pad2 (ext.now 0).month).toList ++
      (pad2 (ext.now 0).day).toList,
      (pad2 (ext.now 0).hour).toList ++ (pad2 (ext.now 0).minute).toList ++
      (pad2 (ext.now 0).second).toList, ?_, rfl, rfl, ?_, ?_⟩
    · simp [strfTimestamp, str_toList_append, pad4, pad2]
    · intro c hc
      simp [pad4, pad2] at hc
      rcases hc with rfl | rfl | rfl | rfl | rfl | rfl | rfl | rfl <;>
        exact digitChar_mod10_isDigit _
    · intro c hc
      simp [pad2] at hc
      rcases hc with rfl | rfl | rfl | rfl | rfl | rfl <;>
        exact digitChar_mod10_isDigit _
  · rw [huid]
    rfl
  · rw [huid]
    intro c hc
    simp at hc
    rcases hc with rfl | rfl | rfl | rfl | rfl | rfl | rfl | rfl <;>
      exact digitChar_lowerHex _ (by omega)

/-- C5 (witness): the concrete request yields 200 and the fully evaluated
key `uploads/20251012_093005_abcd1234_report.pdf`. -/
theorem c5_file_key_pattern_witness :
    (presignWithData [("file_name", .jstr "report.pdf")] "bkt" extOk).statusCode = 200 ∧
    jBody (presignWithData [("file_name", .jstr "report.pdf")] "bkt" extOk) "file_key" =
      some (.jstr "uploads/20251012_093005_abcd1234_report.pdf") := by
  have h := c5_file_key_pattern [("file_name", .jstr "report.pdf")] "bkt" extOk
    "report.pdf" { url := "https://bkt.s3.amazonaws.com/", fields := [("key", "k")] }
    "https://bkt.s3.amazonaws.com/put"
    171 205 18 52 86 120 154 188 222 240 1 35 69 103 137 254
    rfl (by decide) (by decide) rfl (by decide) (fun _ => rfl) (fun _ => rfl)
  exact ⟨h.1, h.2.1.trans (by rfl)⟩

/-! ## C4: the filename metadata round trip -/

@[simp] theorem toList_mk (l : List Char) : (String.mk l).toList = l := rfl

@[simp] theorem mk_toList (s : String) : String.mk s.toList = s := rfl

theorem decodeMetadata_lookup (md : List (String × String)) :
    lookupStr (decodeMetadata md) "original-filename" =
      (lookupStr md "original-filename").map (unquoteOrKeep tryUnquote) := by
  induction md with
  | nil => rfl
  | cons p md ih =>
    obtain ⟨k, v⟩ := p
    by_cases hp : k = "original-filename"
    · subst hp
      have hd : decodeMetadata (("original-filename", v) :: md) =
          ("original-filename", unquoteOrKeep tryUnquote v) :: decodeMetadata md := by
        simp [decodeMetadata]
      rw [hd]
      simp [lookupStr, List.find?]
    · have hb : (k == "original-filename") = false := beq_eq_false_iff_ne.mpr hp
      have hd : decodeMetadata ((k, v) :: md) = (k, v) :: decodeMetadata md := by
        simp [decodeMetadata, hb]
        exact fun hh => absurd hh hp
      have hl1 : lookupStr ((k, v) :: decodeMetadata md) "original-filename" =
          lookupStr (decodeMetadata md) "original-filename" := by
        simp [lookupStr, List.find?, hb]
      have hl2 : lookupStr ((k, v) :: md) "original-filename" =
          lookupStr md "original-filename" := by
        simp [lookupStr, List.find?, hb]
      rw [hd, hl1, hl2, ih]

theorem confirmWithData_found (data : List (String × JVal)) (bucket key : String)
    (ext : Ext) (obj : S3Head)
    (hfk : jLookup data "file_key" = some (.jstr key)) (hkne : key ≠ "")
    (hhead : ext.headObject key = .found obj) :
    confirmWithData data bucket ext =
      { statusCode := 200
        headers := stdHeaders
        body := .jobj [
          ("message", .jstr "File upload confirmed"),
          ("file_key", .jstr key),
          ("s3_url", .jstr ("https://" ++ bucket ++ ".s3.amazonaws.com/" ++ key)),
          ("bucket", .jstr bucket),
          ("file_size", .jnum obj.contentLength),
          ("content_type", .jstr obj.contentType),
          ("last_modified", .jstr obj.lastModified.isoformat),
          ("metadata", .jobj ((decodeMetadata obj.metadata).map fun p => (p.1, JVal.jstr p.2))),
          ("confirmed_at", .jstr (ext.now 0).isoformat)] } := by
  unfold confirmWithData
  dsimp only
  rw [hfk]
  rw [if_neg (by simp [optTruthy, JVal.truthy, hkne])]
  dsimp only [Option.getD]
  rw [hhead]

/-- C4: round trip of the filename metadata.  At issuance the stored
`original-filename` metadata value is exactly the percent-encoding of the
file name with `safe=''`; at confirmation the 200 response carries the stored
metadata with that value URL-decoded back to the original name (for every
file name, by `unquote ∘ quote = id`); and the `try`/`except: pass` around
the decode returns the raw stored value unchanged whenever the decoder
signals failure, leaving the 200 response intact. -/
theorem c4_filename_metadata_roundtrip (fn bucket key : String) (ct : JVal)
    (data : List (String × JVal)) (ext : Ext) (obj : S3Head)
    (hfk : jLookup data "file_key" = some (.jstr key)) (hkne : key ≠ "")
    (hhead : ext.headObject key = .found obj)
    (hmeta : lookupStr obj.metadata "original-filename" = some (encodedFilename fn)) :
    lookupStr (putParamsOf bucket key ct (encodedFilename fn) ext).metadata
        "original-filename" = some (encodedFilename fn) ∧
    encodedFilename fn = String.mk (pyQuoteList fn.toList) ∧
    (confirmWithData data bucket ext).statusCode = 200 ∧
    jBody (confirmWithData data bucket ext) "metadata" =
      some (.jobj ((decodeMetadata obj.metadata).map fun p => (p.1, JVal.jstr p.2))) ∧
    lookupStr (decodeMetadata obj.metadata) "original-filename" = some fn ∧
    (∀ dec v, dec v = .error () → unquoteOrKeep dec v = v) := by
  have heval := confirmWithData_found data bucket key ext obj hfk hkne hhead
  refine ⟨rfl, rfl, by rw [heval], by rw [heval]; rfl, ?_, ?_⟩
  · rw [decodeMetadata_lookup, hmeta]
    simp [unquoteOrKeep, tryUnquote, encodedFilename, pyUnquote_pyQuote]
  · intro dec v h
    unfold unquoteOrKeep
    rw [h]

/-- The stored object whose metadata holds the encoded name of
`résumé (1).pdf`. -/
def sampleHead : S3Head :=
  { contentLength := 1234
    contentType := "application/pdf"
    lastModified := sampleDT
    metadata := [("uploaded-at", "2025-10-12T09:30:05"),
      ("original-filename", "r%C3%A9sum%C3%A9%20%281%29.pdf")] }

/-- A world in which exactly one key exists, carrying `sampleHead`. -/
def extFound : Ext :=
  { extOk with headObject := fun k =>
      if k = "uploads/20251012_093005_abcd1234_r.pdf" then .found sampleHead
      else .noSuchKey }

/-- C4 (witness): the concrete confirm request returns 200 and the decoded
original file name `résumé (1).pdf`. -/
theorem c4_filename_metadata_roundtrip_witness :
    (confirmWithData [("file_key", .jstr "uploads/20251012_093005_abcd1234_r.pdf")]
      "bkt" extFound).statusCode = 200 ∧
    lookupStr (decodeMetadata sampleHead.metadata) "original-filename" =
      some "résumé (1).pdf" := by
  have h := c4_filename_metadata_roundtrip "résumé (1).pdf" "bkt"
    "uploads/20251012_093005_abcd1234_r.pdf" (.jstr "application/pdf")
    [("file_key", .jstr "uploads/20251012_093005_abcd1234_r.pdf")] extFound sampleHead
    rfl (by decide) rfl (by rfl)
  exact ⟨h.2.2.1, h.2.2.2.2.1⟩

/-! ## C3: confirm-upload for a missing key -/

/-- The world that behaves as botocore actually does for a HEAD request
against a missing key: a HEAD response carries no error body, so botocore
raises a generic `ClientError` with error code `'404'` — not the modelled
`NoSuchKey`, which only `get_object`-style responses with a `NoSuchKey` error
body produce.  The body `ckbody` parses to a confirm request for
`uploads/missing.txt`. -/
def extMissing : Ext :=
  { extOk with
    jsonParse := fun s =>
      if s = "ckbody" then .ok (.jobj [("file_key", .jstr "uploads/missing.txt")])
      else .error ()
    headObject := fun _ =>
      .otherError "An error occurred (404) when calling the HeadObject operation: Not Found" }

/-- The same world under the source's apparent assumption that a missing key
surfaces as the `NoSuchKey` exception it catches. -/
def extMissingNSK : Ext := { extMissing with headObject := fun _ => .noSuchKey }

/-- The authenticated confirm-upload request for the missing key. -/
def evConfirm : Event :=
  { resource := "/confirm-upload"
    httpMethod := "POST"
    headers := [("Authorization", "Bearer tok123")]
    body := some "ckbody"
    isBase64Encoded := false }

/-- C3: the `except s3_client.exceptions.NoSuchKey` clause does not match the
exception `head_object` actually raises for a missing key (a generic client
error with code `'404'`), so the handler returns 500 "Failed to confirm
upload" for a nonexistent object; the 404 "File not found in S3" branch is
reached only in the counterfactual world where `head_object` raises
`NoSuchKey`. -/
theorem c3_missing_key_hits_generic_500 :
    handler evConfirm envOk extMissing = errorResponse 500 "Failed to confirm upload" ∧
    handler evConfirm envOk extMissingNSK = errorResponse 404 "File not found in S3" :=
  ⟨rfl, rfl⟩

end UploadLambda
